import Mathlib

/-!
Verification development for the PaperWrite document-authoring application.

The definitions below are a shallow embedding of the application core:
the document data model (`src/types.ts`), the section-row handlers, the
save/open/delete document operations and the mode-deciding load logic of
`src/App.tsx`, the local-storage helpers of `src/hooks/useLocalStorage.ts`,
the generation service of `src/services/openai.ts`, and the continuous-view
merge/sync logic of `src/components/FullDocumentModal.tsx`.

Modelling conventions:
- JavaScript strings are Lean `String`s; the JS falsy test on a string is
  equality with `""`; `s || fallback` is `jsOr s fallback`;
  `s.trim()` is `jsTrim` (whitespace set restricted to the ASCII/NBSP
  characters that occur in this code base's data).
- Nondeterministic identifier generation (`Date.now().toString()`) and
  timestamps (`new Date().toISOString()`) are passed in as parameters.
- Asynchronous collaborator calls (Supabase, OpenAI, localStorage) are
  modelled by passing the call's outcome as an `Except`/inductive argument.
- React `useState` state is collected into an explicit `AppState` record;
  each handler is a function from the old state (plus collaborator
  outcomes) to the new state.
- The browser's `DOMParser` is a platform collaborator, not repository
  code: the continuous-view sync is therefore embedded at the level of the
  parsed block-node list (`DomNode`), which records exactly the fields the
  source reads (`nodeName`, `textContent`, `outerHTML`).
-/

namespace PaperWrite

/-- The whitespace predicate used to model JavaScript's `String.prototype.trim`.
JS trims WhiteSpace and LineTerminator code points; we cover the ASCII ones
plus NBSP, which is sufficient for all data this application produces. -/
def isJsWhitespace (c : Char) : Bool :=
  c = ' ' || c = '\t' || c = '\n' || c = '\r' || c = Char.ofNat 11 || c = Char.ofNat 12 || c = Char.ofNat 160

/-- Trim `isJsWhitespace` characters from both ends of a character list. -/
def trimCharList (l : List Char) : List Char :=
  ((l.dropWhile isJsWhitespace).reverse.dropWhile isJsWhitespace).reverse

/-- Model of JavaScript `s.trim()`. -/
def jsTrim (s : String) : String :=
  String.mk (trimCharList s.data)

/-- Model of JavaScript `s || fallback` for strings (empty string is falsy). -/
def jsOr (s fallback : String) : String :=
  if s = "" then fallback else s

/-- `aiPrompt` field of a `DocumentRow` (src/types.ts). -/
structure AiPrompt where
  wordCount : Nat
  tone : String
  prompt : String
deriving DecidableEq, Repr, Inhabited

/-- `sectionInputs` field of a `DocumentRow` (src/types.ts): five named
ordered lists of free-text strings. -/
structure SectionInputs where
  facts : List String
  concepts : List String
  opinions : List String
  examples : List String
  other : List String
deriving DecidableEq, Repr, Inhabited

/-- `expandedInputs` field of a `DocumentRow` (src/types.ts). -/
structure ExpandedInputs where
  facts : Bool
  concepts : Bool
  opinions : Bool
  examples : Bool
  other : Bool
deriving DecidableEq, Repr, Inhabited

/-- `DocumentRow` (src/types.ts); a "Section" in the spec's vocabulary.
The TS optional fields `isLoading?: boolean` and `error?: string` are
`Option`s (`none` = the property is absent/undefined). -/
structure DocumentRow where
  id : String
  title : String
  input : String
  aiPrompt : AiPrompt
  output : String
  isExpanded : Bool
  isLoading : Option Bool
  error : Option String
  sectionInputs : SectionInputs
  expandedInputs : ExpandedInputs
deriving DecidableEq, Repr, Inhabited

/-- `SavedDocument` (src/types.ts). -/
structure SavedDocument where
  id : String
  title : String
  createdAt : String
  updatedAt : String
  rows : List DocumentRow
deriving DecidableEq, Repr, Inhabited

/-- `SupabaseDocument` (src/App.tsx): the row shape returned by the remote store. -/
structure SupabaseDocument where
  id : String
  user_id : String
  title : String
  rows : List DocumentRow
  created_at : String
  updated_at : String
deriving DecidableEq, Repr, Inhabited

/-- `mapSupabaseToSavedDocument` (src/App.tsx). -/
def mapSupabaseToSavedDocument (doc : SupabaseDocument) : SavedDocument :=
  { id := doc.id, title := doc.title, rows := doc.rows,
    createdAt := doc.created_at, updatedAt := doc.updated_at }

/-- `createInitialRow` (src/App.tsx).  The TS default argument
`id = Date.now().toString()` is nondeterministic, so the id is always
passed explicitly here; `input` and `title` default to `''` at call sites.
`title: title || Section ...` uses the JS falsy-or; `id.substring(0, 4)`
is `String.take 4`. -/
def createInitialRow (id input title : String) : DocumentRow :=
  { id := id
    title := jsOr title ("Section " ++ id.take 4)
    input := input
    aiPrompt := { wordCount := 100, tone := "professional", prompt := "" }
    output := ""
    isExpanded := true
    isLoading := some false
    error := none
    sectionInputs := { facts := [""], concepts := [""], opinions := [""], examples := [""], other := [""] }
    expandedInputs := { facts := false, concepts := false, opinions := false, examples := false, other := false } }

/-- Default `DocumentRow` used only as the `List.getD` fallback in statements. -/
def defaultRow : DocumentRow := createInitialRow "" "" ""

/-- `OperatingMode` (src/App.tsx): `'loading' | 'supabase' | 'local' | 'error'`.
(`local` is a Lean keyword, hence the constructor name `localMode`.) -/
inductive OperatingMode where
  | loading
  | supabase
  | localMode
  | error
deriving DecidableEq, Repr, Inhabited

/-- The `useState` pieces of `App` (src/App.tsx) that the document operations
read and write: `rows`, `savedDocuments`, `currentDocumentId`,
`operatingMode`, `appError`. -/
structure AppState where
  rows : List DocumentRow
  savedDocuments : List SavedDocument
  currentDocumentId : Option String
  operatingMode : OperatingMode
  appError : Option String
deriving DecidableEq, Repr, Inhabited

/-- `handleDeleteRow` (src/App.tsx): delete a section by id, guarded by
`rows.length > 1`. -/
def handleDeleteRow (rows : List DocumentRow) (id : String) : List DocumentRow :=
  if rows.length > 1 then rows.filter (fun row => row.id ≠ id) else rows

/-- Positionally indexed map, the embedding of JS
`array.map((x, index) => f(index, x))` starting at index `k`. -/
def mapIdxFrom (f : Nat → DocumentRow → DocumentRow) : Nat → List DocumentRow → List DocumentRow
  | _, [] => []
  | k, r :: rs => f k r :: mapIdxFrom f (k + 1) rs

/-- `handleImportDocument` (src/App.tsx): `currentRow = prevRows[prevRows.length - 1]`;
if it exists and its input is blank, replace that last row's input with the
imported text, else append `createInitialRow(Date.now().toString(), text)`.
`freshId` stands for the generated `Date.now().toString()`. -/
def handleImportDocument (text freshId : String) (prevRows : List DocumentRow) : List DocumentRow :=
  match prevRows.getLast? with
  | some currentRow =>
    if jsTrim currentRow.input = "" then
      mapIdxFrom (fun index row => if index = prevRows.length - 1 then { row with input := text } else row) 0 prevRows
    else
      prevRows ++ [createInitialRow freshId text ""]
  | none => prevRows ++ [createInitialRow freshId text ""]

/-- The chat-completion collaborator's outcome, as read by `generateText`
(src/services/openai.ts): either the request resolves and
`response.choices[0]?.message?.content` is the given optional string
(`none` = absent/null), or the request rejects with an error whose
`message` is the given optional string (`none` = a non-`Error` throw). -/
inductive ApiOutcome where
  | resolved (content : Option String)
  | rejected (message : Option String)
deriving DecidableEq, Repr, Inhabited

/-- The observable result of `generateText` (src/services/openai.ts):
either it returns a string, or it throws (only when the client is not
initialized). -/
inductive GenResult where
  | returns (text : String)
  | throws (message : String)
deriving DecidableEq, Repr, Inhabited

/-- `generateText` (src/services/openai.ts).  `initialized` models
`openai && model` being non-null.  Note that an empty or missing response
content and a transport error are both converted to RETURNED strings
(`'Error: ...'`), not thrown errors. -/
def generateText (initialized : Bool) (api : ApiOutcome) : GenResult :=
  if ¬ initialized then
    GenResult.throws "OpenAI client or model not initialized"
  else
    match api with
    | ApiOutcome.rejected msg =>
      match msg with
      | some m => GenResult.returns ("Error generating text: " ++ m)
      | none => GenResult.returns "An unknown error occurred while generating text."
    | ApiOutcome.resolved content =>
      match content with
      | none => GenResult.returns "Error: No content received from API."
      | some c =>
        if c = "" then GenResult.returns "Error: No content received from API."
        else GenResult.returns c

/-- `handleGenerateText` (src/App.tsx), as a function on the `rows` state.
`aiInit` models `isAiInitialized` (which coincides with the service's
`openai && model` being set). -/
def handleGenerateText (aiInit : Bool) (api : ApiOutcome) (rows : List DocumentRow) (id : String) :
    List DocumentRow :=
  if ¬ aiInit then
    rows.map (fun r => if r.id = id then { r with error := some "OpenAI client not initialized.", isLoading := some false } else r)
  else
    match rows.find? (fun r => r.id = id) with
    | none => rows
    | some _ =>
      let rows1 := rows.map (fun r => if r.id = id then { r with isLoading := some true, error := none } else r)
      match generateText true api with
      | GenResult.returns t =>
        rows1.map (fun r => if r.id = id then { r with output := t, isLoading := some false } else r)
      | GenResult.throws m =>
        rows1.map (fun r => if r.id = id then { r with error := some m, isLoading := some false } else r)

/-- The outcome of one `getItem` read (src/hooks/useLocalStorage.ts), seen
from inside the helper: `Except.error` models `window.localStorage.getItem`
or `JSON.parse` throwing, `Except.ok none` models a `null` item, and
`Except.ok (some v)` models a successfully parsed value. -/
def getItem {α : Type} (readResult : Except String (Option α)) (initialValue : α) : α :=
  match readResult with
  | Except.error _ => initialValue
  | Except.ok none => initialValue
  | Except.ok (some v) => v

/-- `setItem` (src/hooks/useLocalStorage.ts): the write outcome as observed
by the caller.  The source wraps the write in try/catch and only logs the
failure, so the helper always returns normally. -/
def setItem (writeResult : Except String Unit) : Except String Unit :=
  match writeResult with
  | Except.error _ => Except.ok ()
  | Except.ok _ => Except.ok ()

/-- A successfully parsed localStorage value for one of the two list-valued
keys, as `loadFromLocalStorage` receives it from `getItem`.  JavaScript is
untyped: `JSON.parse` can return a value of a shape other than the one the
caller expects.  `typed v` is a value of the expected array shape;
`nullValue m` is the canonical corrupted-but-parseable value `null` (stored
as the string `"null"`, which is truthy, so `getItem` parses and returns it
instead of the default).  Using that `null` as an array inside
`loadFromLocalStorage` (`.find`, `.length`) throws a TypeError whose
engine-supplied message is `m`. -/
inductive ParsedValue (α : Type) where
  | typed (v : α)
  | nullValue (m : String)
deriving DecidableEq, Repr, Inhabited

/-- The value a `setRows`/`setSavedDocuments` call stores, within the typed
model: a `typed` parsed value is stored as-is; the `null` value cannot
inhabit the typed state field, so the model keeps the field's previous
content.  No theorem reads a state field that holds such an off-shape
value. -/
def ParsedValue.getTyped {α : Type} (v : ParsedValue α) (prev : α) : α :=
  match v with
  | ParsedValue.typed x => x
  | ParsedValue.nullValue _ => prev

/-- The branch of `loadFromLocalStorage` (src/App.tsx) taken when the stored
current-document id is absent or falsy; `curId` is that id's raw parsed
value (`none` for null/absent, `some ""` for a stored empty string), which
the earlier `setCurrentDocumentId(localCurrentId)` call stored.  When
`localRows` is the parsed `null`, `localRows.length` throws inside the try
block and the catch records the cause and sets the error mode. -/
def loadLocalNoCurrentDoc (st : AppState) (localRows : ParsedValue (List DocumentRow))
    (localSavedDocs : ParsedValue (List SavedDocument)) (curId : Option String)
    (freshId : String) : AppState :=
  match localRows with
  | ParsedValue.nullValue m =>
    { st with savedDocuments := ParsedValue.getTyped localSavedDocs st.savedDocuments,
              currentDocumentId := curId,
              appError := some ("Failed to load data from LocalStorage: " ++ m),
              operatingMode := OperatingMode.error }
  | ParsedValue.typed rows0 =>
    if rows0.length = 0 ∨
        (rows0.length = 1 ∧
          (rows0.getD 0 defaultRow).input = "" ∧ (rows0.getD 0 defaultRow).output = "") then
      { st with rows := [createInitialRow freshId "" ""],
                savedDocuments := ParsedValue.getTyped localSavedDocs st.savedDocuments,
                currentDocumentId := curId,
                operatingMode := OperatingMode.localMode, appError := none }
    else
      { st with rows := rows0,
                savedDocuments := ParsedValue.getTyped localSavedDocs st.savedDocuments,
                currentDocumentId := curId,
                operatingMode := OperatingMode.localMode, appError := none }

/-- `loadFromLocalStorage` (src/App.tsx).  The three reads are passed in as
`getItem` outcomes; the two list-valued keys can additionally yield the
corrupted-but-parseable `null` (`ParsedValue.nullValue`); `freshId` stands
for the id generated by any `createInitialRow()` call on this path.  The
final state is the net effect of the sequence of `set*` calls, including
the catch block: when the current-document id is set (`if (localCurrentId)`
— a non-empty string; the empty string is falsy) and `localSavedDocs`
parsed to `null`, `localSavedDocs.find` throws inside the try block, and
the catch sets `appError` to the recorded cause and `operatingMode` to the
error mode, with the `set*` calls made before the throw already applied. -/
def loadFromLocalStorage (st : AppState)
    (rowsRead : Except String (Option (ParsedValue (List DocumentRow))))
    (docsRead : Except String (Option (ParsedValue (List SavedDocument))))
    (idRead : Except String (Option (Option String)))
    (freshId : String) : AppState :=
  let localRows := getItem rowsRead (ParsedValue.typed [createInitialRow freshId "" ""])
  let localSavedDocs := getItem docsRead (ParsedValue.typed [])
  let localCurrentId := getItem idRead none
  match localCurrentId with
  | some cid =>
    if cid = "" then
      loadLocalNoCurrentDoc st localRows localSavedDocs (some cid) freshId
    else
      match localSavedDocs with
      | ParsedValue.nullValue m =>
        { st with rows := ParsedValue.getTyped localRows st.rows,
                  currentDocumentId := some cid,
                  appError := some ("Failed to load data from LocalStorage: " ++ m),
                  operatingMode := OperatingMode.error }
      | ParsedValue.typed docs =>
        match docs.find? (fun doc => doc.id = cid) with
        | some currentDoc =>
          { st with rows := currentDoc.rows, savedDocuments := docs,
                    currentDocumentId := some cid,
                    operatingMode := OperatingMode.localMode, appError := none }
        | none =>
          { st with rows := [createInitialRow freshId "" ""], savedDocuments := docs,
                    currentDocumentId := none,
                    operatingMode := OperatingMode.localMode, appError := none }
  | none => loadLocalNoCurrentDoc st localRows localSavedDocs none freshId

/-- The remote-store collaborator outcomes consumed by `loadFromSupabase`
(src/App.tsx): `authResult` is `client.auth.getUser()` folded to either the
user id or the thrown message (`userError || new Error("User not authenticated.")`),
and `listDocs` is the ordered `select('*')` query outcome. -/
structure RemoteEnv where
  authResult : Except String String
  listDocs : Except String (List SupabaseDocument)
deriving Inhabited

/-- `loadFromSupabase` (src/App.tsx). -/
def loadFromSupabase (st : AppState) (env : RemoteEnv) (freshId : String) : AppState :=
  match env.authResult with
  | Except.error m =>
    { st with appError := some ("Failed to load data from Supabase: " ++ m),
              operatingMode := OperatingMode.error }
  | Except.ok _ =>
    match env.listDocs with
    | Except.error m =>
      { st with appError := some ("Failed to load data from Supabase: " ++ m),
                operatingMode := OperatingMode.error }
    | Except.ok data =>
      { st with savedDocuments := data.map mapSupabaseToSavedDocument,
                rows := [createInitialRow freshId "" ""],
                currentDocumentId := none,
                operatingMode := OperatingMode.supabase, appError := none }

/-- Stable insertion step for the embedding of
`updatedDocs.sort((a, b) => new Date(b.updatedAt).getTime() - new Date(a.updatedAt).getTime())`
(src/App.tsx); `getTime` abstracts `new Date(s).getTime()`.  The comparison
is strict so that `d` (the earlier element of the original order) is placed
BEFORE entries with an equal `updatedAt` time, matching the stability that
the JS `sort` comparator (which returns 0 on ties) guarantees. -/
def insertByUpdatedAtDesc (getTime : String → Int) (d : SavedDocument) :
    List SavedDocument → List SavedDocument
  | [] => [d]
  | e :: es =>
    if getTime e.updatedAt > getTime d.updatedAt then e :: insertByUpdatedAtDesc getTime d es
    else d :: e :: es

/-- Embedding of the (stable) JS `Array.prototype.sort` by `updatedAt` descending. -/
def sortByUpdatedAtDesc (getTime : String → Int) : List SavedDocument → List SavedDocument
  | [] => []
  | d :: ds => insertByUpdatedAtDesc getTime d (sortByUpdatedAtDesc getTime ds)

/-- `handleSaveDocument` (src/App.tsx).  `supabaseAvailable` models the
`supabase` client reference being non-null; `upsertRes` is the outcome of
the `update`/`insert` call; `now` stands for `new Date().toISOString()`;
`freshDocId` for the `Date.now().toString()` of a newly created local
document; `freshRowId` for the row id generated inside the
`loadFromSupabase` refresh. -/
def handleSaveDocument (st : AppState) (title : String) (supabaseAvailable : Bool)
    (env : RemoteEnv) (upsertRes : Except String SupabaseDocument)
    (now freshDocId freshRowId : String) (getTime : String → Int) : AppState :=
  let trimmedTitle := jsTrim title
  if trimmedTitle = "" then st
  else if st.operatingMode = OperatingMode.supabase ∧ supabaseAvailable then
    match env.authResult with
    | Except.error m => { st with appError := some m, operatingMode := OperatingMode.error }
    | Except.ok _ =>
      match upsertRes with
      | Except.error m => { st with appError := some m, operatingMode := OperatingMode.error }
      | Except.ok savedDocData =>
        let st1 :=
          if st.currentDocumentId = none then { st with currentDocumentId := some savedDocData.id }
          else st
        loadFromSupabase st1 env freshRowId
  else if st.operatingMode = OperatingMode.localMode then
    let existingDocIndex : Option Nat :=
      match st.currentDocumentId with
      | some cid => st.savedDocuments.findIdx? (fun doc => doc.id = cid)
      | none => none
    match existingDocIndex with
    | some i =>
      let old := st.savedDocuments.getD i default
      let updatedDocs :=
        st.savedDocuments.set i { old with title := trimmedTitle, rows := st.rows, updatedAt := now }
      { st with savedDocuments := sortByUpdatedAtDesc getTime updatedDocs }
    | none =>
      let newDoc : SavedDocument :=
        { id := freshDocId, title := trimmedTitle, rows := st.rows, createdAt := now, updatedAt := now }
      { st with savedDocuments := sortByUpdatedAtDesc getTime (st.savedDocuments ++ [newDoc]),
                currentDocumentId := some freshDocId }
  else
    { st with appError := some "Cannot save document. Application is not in a valid state." }

/-- `handleOpenDocument` (src/App.tsx). -/
def handleOpenDocument (st : AppState) (doc : SavedDocument) : AppState :=
  { st with rows := doc.rows, currentDocumentId := some doc.id }

/-- `handleDeleteDocument` (src/App.tsx).  `deleteRes` is the outcome of the
remote delete call. -/
def handleDeleteDocument (st : AppState) (id : String) (supabaseAvailable : Bool)
    (env : RemoteEnv) (deleteRes : Except String Unit) (freshRowId : String) : AppState :=
  if st.operatingMode = OperatingMode.supabase ∧ supabaseAvailable then
    match deleteRes with
    | Except.error m => { st with appError := some m, operatingMode := OperatingMode.error }
    | Except.ok _ =>
      let st1 :=
        if st.currentDocumentId = some id then
          { st with currentDocumentId := none, rows := [createInitialRow freshRowId "" ""] }
        else st
      loadFromSupabase st1 env freshRowId
  else if st.operatingMode = OperatingMode.localMode then
    let st1 := { st with savedDocuments := st.savedDocuments.filter (fun doc => doc.id ≠ id) }
    if st.currentDocumentId = some id then
      { st1 with currentDocumentId := none, rows := [createInitialRow freshRowId "" ""] }
    else st1
  else
    { st with appError := some "Cannot delete document. Application is not in a valid state." }

/-- `handleNewDocument` (src/App.tsx). -/
def handleNewDocument (st : AppState) (freshRowId : String) : AppState :=
  { st with currentDocumentId := none, rows := [createInitialRow freshRowId "" ""] }

/-- One parsed DOM child node of the wrapper `<div>`, recording exactly the
fields `handleSyncContinuousChanges` reads: `nodeName` (uppercase for
elements, `#text` for text nodes), `textContent` (`""` for null), and
`outerHTML` (`none` for non-element nodes, on which the property is
undefined). -/
structure DomNode where
  nodeName : String
  textContent : String
  outerHTML : Option String
deriving DecidableEq, Repr, Inhabited

/-- The serialization read off a node by the sync scan:
`(node as Element).outerHTML || node.textContent || ''` with JS falsy-or. -/
def nodeSerial (n : DomNode) : String :=
  match n.outerHTML with
  | some h => if h = "" then n.textContent else h
  | none => n.textContent

/-- One derived section of the sync scan
(`{ title: string; outputHTML: string }` in src/components/FullDocumentModal.tsx). -/
structure SectionData where
  title : String
  outputHTML : String
deriving DecidableEq, Repr, Inhabited

/-- Default `SectionData` used only as the `List.getD` fallback in statements. -/
def defaultSection : SectionData := { title := "", outputHTML := "" }

/-- The node scan of `handleSyncContinuousChanges`
(src/components/FullDocumentModal.tsx): an `H2` starts a new section titled
`(node.textContent || 'Untitled Section').trim()`; an `HR` is dropped;
any other node's serialization is appended to the open section; a node
before the first `H2` opens an implicit `'Untitled Section'` section, but
only when its `textContent` has non-whitespace content.  `cur` is the
`currentSection` variable (it lives at the tail of the emitted list in the
source; here it is carried separately and emitted when closed). -/
def scanNodes : List DomNode → Option SectionData → List SectionData
  | [], none => []
  | [], some c => [c]
  | n :: rest, cur =>
    if n.nodeName = "H2" then
      let opened : SectionData := { title := jsTrim (jsOr n.textContent "Untitled Section"), outputHTML := "" }
      match cur with
      | none => scanNodes rest (some opened)
      | some c => c :: scanNodes rest (some opened)
    else
      match cur with
      | some c =>
        if n.nodeName = "HR" then scanNodes rest (some c)
        else scanNodes rest (some { c with outputHTML := c.outputHTML ++ nodeSerial n })
      | none =>
        if n.nodeName ≠ "HR" ∧ jsTrim n.textContent ≠ "" then
          scanNodes rest (some { title := "Untitled Section", outputHTML := nodeSerial n })
        else
          scanNodes rest none

/-- The derived sections of `handleSyncContinuousChanges`: the node scan
followed by the per-section `outputHTML.trim()` pass. -/
def splitSections (parsedNodes : List DomNode) : List SectionData :=
  (scanNodes parsedNodes none).map (fun s => { s with outputHTML := jsTrim s.outputHTML })

/-- The per-row update of `handleSyncContinuousChanges`: replace title and
output only when one of them actually changed, otherwise return the
original row object. -/
def updateRow (originalRow : DocumentRow) (newData : SectionData) : DocumentRow :=
  if originalRow.title ≠ newData.title ∨ originalRow.output ≠ newData.outputHTML then
    { originalRow with title := newData.title, output := newData.outputHTML }
  else originalRow

/-- The row-update map of `handleSyncContinuousChanges`:
`rows.map((originalRow, index) => ...)` pairing row `index` with
`newSectionsData[index]`, keeping the original row when the lookup is
undefined. -/
def applyDerived : List DocumentRow → List SectionData → List DocumentRow
  | [], _ => []
  | r :: rs, [] => r :: applyDerived rs []
  | r :: rs, d :: ds => updateRow r d :: applyDerived rs ds

/-- `syncStatus` values set by `handleSyncContinuousChanges`
(the `idle` state is only the initial/reset value). -/
inductive SyncStatus where
  | idle
  | success (message : String)
  | error (message : String)
deriving DecidableEq, Repr, Inhabited

/-- The observable outcome of `handleSyncContinuousChanges`: the rows state
after the call (`onUpdateAllRows` is invoked only on the success path) and
the resulting `syncStatus`. -/
structure SyncOutcome where
  rows : List DocumentRow
  status : SyncStatus
deriving DecidableEq, Repr, Inhabited

/-- The error message thrown on a section-count mismatch
(src/components/FullDocumentModal.tsx). -/
def mismatchMessage (derivedCount expectedCount : Nat) : String :=
  "Parsing resulted in " ++ toString derivedCount ++ " sections, but expected " ++
    toString expectedCount ++ ". Structure may have been changed too much. Sync aborted."

/-- `handleSyncContinuousChanges` (src/components/FullDocumentModal.tsx),
taking the parsed child-node list of the wrapper `<div>` (the `DOMParser`
call is a platform collaborator).  The thrown mismatch error is caught by
the surrounding try/catch, which records it in `syncStatus` and leaves the
rows untouched. -/
def handleSyncContinuousChanges (parsedNodes : List DomNode) (rows : List DocumentRow) : SyncOutcome :=
  let newSectionsData := splitSections parsedNodes
  if newSectionsData.length ≠ rows.length then
    { rows := rows, status := SyncStatus.error (mismatchMessage newSectionsData.length rows.length) }
  else
    { rows := applyDerived rows newSectionsData,
      status := SyncStatus.success "Changes synced successfully!" }

/-- The continuous-view merge of `FullDocumentModal` (src/components/FullDocumentModal.tsx):
`rows.map(row => <h2>title</h2>\n + output).join(\n<hr ...>\n)`. -/
def combinedHtml (rows : List DocumentRow) : String :=
  String.intercalate ("\n" ++ "<hr class=\"my-4 border-gray-700\">" ++ "\n")
    (rows.map (fun row => "<h2>" ++ jsOr row.title "Untitled Section" ++ "</h2>" ++ "\n" ++ row.output))

/-- The parsed form of one `<h2>title</h2>` produced by the merge, under the
assumption that the title is plain text (no markup or entities). -/
def h2Node (titleText : String) : DomNode :=
  { nodeName := "H2", textContent := titleText, outerHTML := some ("<h2>" ++ titleText ++ "</h2>") }

/-- The parsed form of one `\n` text node produced by the merge. -/
def nlNode : DomNode :=
  { nodeName := "#text", textContent := "\n", outerHTML := none }

/-- The parsed form of the `<hr class="my-4 border-gray-700">` separator
produced by the merge. -/
def hrNode : DomNode :=
  { nodeName := "HR", textContent := "", outerHTML := some "<hr class=\"my-4 border-gray-700\">" }

/-- Modelled from the spec: the browser's `DOMParser` is not repository
code, so the parse of the merged markup is modelled at the block-node level
(spec 4.2: "parse `mergedMarkup` as a sequence of block-level nodes").
`parseOut row` is the block-node list the row's `output` string parses to;
the merged document then parses to the h2/newline/output/hr interleaving
produced by the merge concatenation, assuming each output parses to whole
block nodes and each title is plain text. -/
def mergeNodes (parseOut : DocumentRow → List DomNode) : List DocumentRow → List DomNode
  | [] => []
  | [r] => h2Node (jsOr r.title "Untitled Section") :: nlNode :: parseOut r
  | r :: rs =>
    (h2Node (jsOr r.title "Untitled Section") :: nlNode :: parseOut r) ++
      ([nlNode, hrNode, nlNode] ++ mergeNodes parseOut rs)

/-- Concatenated serialization of a node list, in scan-append order. -/
def serialNodes : List DomNode → String
  | [] => ""
  | n :: ns => nodeSerial n ++ serialNodes ns

/-- Concatenated serialization of a node list with `HR` nodes dropped: what
the scan appends to an open section while no `H2` arrives. -/
def serialNonHR : List DomNode → String
  | [] => ""
  | n :: ns => if n.nodeName = "HR" then serialNonHR ns else nodeSerial n ++ serialNonHR ns

/-! Concrete fixtures used by witness and counterexample theorems. -/

/-- A parsed `<p>x</p>` element node. -/
def pNodeX : DomNode := { nodeName := "P", textContent := "x", outerHTML := some "<p>x</p>" }

/-- A parsed `<p>y</p>` element node. -/
def pNodeY : DomNode := { nodeName := "P", textContent := "y", outerHTML := some "<p>y</p>" }

/-- A section row titled `A` whose output is `<p>x</p>`. -/
def rowA : DocumentRow := { createInitialRow "1" "" "A" with output := "<p>x</p>" }

/-- A section row titled `B` with empty output. -/
def rowB : DocumentRow := createInitialRow "2" "" "B"

/-- A section row with an empty title and output `<p>x</p>`. -/
def rowNoTitle : DocumentRow := { createInitialRow "3" "" "" with title := "", output := "<p>x</p>" }

/-- A concrete output parse map: `<p>x</p>` parses to the single `P` node,
the empty output parses to no nodes. -/
def parseOutX (r : DocumentRow) : List DomNode :=
  if r.output = "<p>x</p>" then [pNodeX] else []

/-- A saved document with no rows (as could be stored by a crafted or
corrupted local snapshot). -/
def docEmptyRows : SavedDocument :=
  { id := "d1", title := "Empty", createdAt := "t1", updatedAt := "t2", rows := [] }

/-- A concrete app state in local mode with one default section and an
empty saved-document index. -/
def stLocal : AppState :=
  { rows := [createInitialRow "1" "draft" ""], savedDocuments := [], currentDocumentId := none,
    operatingMode := OperatingMode.localMode, appError := none }

/-- A concrete remote environment whose every call fails. -/
def envDown : RemoteEnv :=
  { authResult := Except.error "network down", listDocs := Except.error "network down" }

/-- A section row used by the generation counterexample: id `1234`,
existing output `ORIG`. -/
def rowGen : DocumentRow := { createInitialRow "1234" "" "T" with output := "ORIG" }

/-! ## Helper lemmas on the string model -/

theorem dropWhile_append_of_all (p : Char → Bool) (l m : List Char) (h : ∀ c ∈ l, p c) :
    (l ++ m).dropWhile p = m.dropWhile p := by
  induction l with
  | nil => simp
  | cons a l ih => simp_all [List.dropWhile]

theorem trimCharList_ws_left (l m : List Char) (h : ∀ c ∈ l, isJsWhitespace c) :
    trimCharList (l ++ m) = trimCharList m := by
  unfold trimCharList
  rw [dropWhile_append_of_all _ _ _ h]

theorem trimCharList_ws_right (l q : List Char) (h : ∀ c ∈ q, isJsWhitespace c) :
    trimCharList (l ++ q) = trimCharList l := by
  unfold trimCharList
  by_cases hl : l.dropWhile isJsWhitespace = []
  · have hlall : ∀ c ∈ l, isJsWhitespace c := List.dropWhile_eq_nil_iff.mp hl
    have hall : ∀ c ∈ l ++ q, isJsWhitespace c := by
      intro c hc
      rcases List.mem_append.mp hc with hc | hc
      · exact hlall c hc
      · exact h c hc
    rw [List.dropWhile_eq_nil_iff.mpr hall, hl]
  · rw [List.dropWhile_append, if_neg (by simpa [List.isEmpty_iff] using hl),
      List.reverse_append,
      dropWhile_append_of_all _ _ _ (fun c hc => h c (List.mem_reverse.mp hc))]

theorem jsTrim_ws_left (p s : String) (h : ∀ c ∈ p.data, isJsWhitespace c) :
    jsTrim (p ++ s) = jsTrim s := by
  unfold jsTrim
  rw [String.data_append, trimCharList_ws_left _ _ h]

theorem jsTrim_ws_right (s q : String) (h : ∀ c ∈ q.data, isJsWhitespace c) :
    jsTrim (s ++ q) = jsTrim s := by
  unfold jsTrim
  rw [String.data_append, trimCharList_ws_right _ _ h]

/-! ## Helper lemmas on the continuous-view scan -/

theorem scanNodes_run (ns rest : List DomNode) (c : SectionData)
    (h : ∀ n ∈ ns, n.nodeName ≠ "H2") :
    scanNodes (ns ++ rest) (some c) =
      scanNodes rest (some { c with outputHTML := c.outputHTML ++ serialNonHR ns }) := by
  induction ns generalizing c with
  | nil => simp [serialNonHR, String.append_empty]
  | cons n ns ih =>
    have hn : n.nodeName ≠ "H2" := h n (List.mem_cons_self n ns)
    have hns : ∀ m ∈ ns, m.nodeName ≠ "H2" := fun m hm => h m (List.mem_cons_of_mem _ hm)
    by_cases hr : n.nodeName = "HR"
    · simp [scanNodes, hn, hr, serialNonHR, ih _ hns]
    · simp [scanNodes, hn, hr, serialNonHR, ih _ hns, String.append_assoc]

theorem scanNodes_skip (ns rest : List DomNode)
    (h : ∀ n ∈ ns, n.nodeName ≠ "H2" ∧ (n.nodeName = "HR" ∨ jsTrim n.textContent = "")) :
    scanNodes (ns ++ rest) none = scanNodes rest none := by
  induction ns with
  | nil => rfl
  | cons n ns ih =>
    obtain ⟨hn, hcase⟩ := h n (List.mem_cons_self n ns)
    have hns := fun m hm => h m (List.mem_cons_of_mem _ hm)
    rcases hcase with hr | ht
    · simp [scanNodes, hn, hr, ih hns]
    · by_cases hr : n.nodeName = "HR" <;> simp [scanNodes, hn, hr, ht, ih hns]

theorem scanNodes_emit (m : DomNode) (rest : List DomNode) (c : SectionData)
    (hm : m.nodeName = "H2") :
    scanNodes (m :: rest) (some c) = c :: scanNodes (m :: rest) none := by
  simp [scanNodes, hm]

theorem scanNodes_hr_drop (n : DomNode) (hn : n.nodeName = "HR") (l1 l2 : List DomNode) :
    ∀ cur, scanNodes (l1 ++ n :: l2) cur = scanNodes (l1 ++ l2) cur := by
  induction l1 with
  | nil =>
    intro cur
    have hne : n.nodeName ≠ "H2" := by rw [hn]; decide
    cases cur with
    | none => simp [scanNodes, hne, hn]
    | some c => simp [scanNodes, hne, hn]
  | cons a l1 ih =>
    intro cur
    by_cases ha : a.nodeName = "H2"
    · cases cur <;> simp [scanNodes, ha, ih]
    · cases cur with
      | some c => by_cases hr : a.nodeName = "HR" <;> simp [scanNodes, ha, hr, ih]
      | none =>
        by_cases hcond : a.nodeName ≠ "HR" ∧ jsTrim a.textContent ≠ "" <;>
          simp [scanNodes, ha, hcond, ih]

theorem serialNonHR_append (a b : List DomNode) :
    serialNonHR (a ++ b) = serialNonHR a ++ serialNonHR b := by
  induction a with
  | nil => simp [serialNonHR, String.empty_append]
  | cons n a ih =>
    by_cases hr : n.nodeName = "HR" <;> simp [serialNonHR, hr, ih, String.append_assoc]

theorem serialNonHR_of_no_hr (ns : List DomNode) (h : ∀ n ∈ ns, n.nodeName ≠ "HR") :
    serialNonHR ns = serialNodes ns := by
  induction ns with
  | nil => rfl
  | cons n ns ih =>
    have hn := h n (List.mem_cons_self n ns)
    simp [serialNonHR, serialNodes, hn, ih (fun m hm => h m (List.mem_cons_of_mem _ hm))]

/-! ## Helper lemmas on the row update of the sync -/

theorem updateRow_title (r : DocumentRow) (d : SectionData) :
    (updateRow r d).title = d.title := by
  unfold updateRow
  split
  · rfl
  · rename_i h
    push_neg at h
    exact h.1

theorem updateRow_output (r : DocumentRow) (d : SectionData) :
    (updateRow r d).output = d.outputHTML := by
  unfold updateRow
  split
  · rfl
  · rename_i h
    push_neg at h
    exact h.2

theorem updateRow_frame (r : DocumentRow) (d : SectionData) :
    (updateRow r d).id = r.id ∧ (updateRow r d).input = r.input ∧
    (updateRow r d).aiPrompt = r.aiPrompt ∧ (updateRow r d).isExpanded = r.isExpanded ∧
    (updateRow r d).isLoading = r.isLoading ∧ (updateRow r d).error = r.error ∧
    (updateRow r d).sectionInputs = r.sectionInputs ∧
    (updateRow r d).expandedInputs = r.expandedInputs := by
  unfold updateRow
  split <;> simp

theorem updateRow_self (r : DocumentRow) (d : SectionData)
    (h1 : d.title = r.title) (h2 : d.outputHTML = r.output) : updateRow r d = r := by
  unfold updateRow
  rw [if_neg]
  push_neg
  exact ⟨h1.symm, h2.symm⟩

theorem applyDerived_length (rows : List DocumentRow) (ds : List SectionData) :
    (applyDerived rows ds).length = rows.length := by
  induction rows generalizing ds with
  | nil => rfl
  | cons r rs ih => cases ds <;> simp [applyDerived, ih]

theorem applyDerived_getD (rows : List DocumentRow) (ds : List SectionData) (i : Nat)
    (hi : i < rows.length) (hd : i < ds.length) :
    (applyDerived rows ds).getD i defaultRow =
      updateRow (rows.getD i defaultRow) (ds.getD i defaultSection) := by
  induction rows generalizing ds i with
  | nil => simp at hi
  | cons r rs ih =>
    cases ds with
    | nil => simp at hd
    | cons d ds =>
      cases i with
      | zero => simp [applyDerived]
      | succ n =>
        simp only [applyDerived, List.getD_cons_succ]
        exact ih ds n (by simpa using hi) (by simpa using hd)

theorem applyDerived_self (rows : List DocumentRow) :
    applyDerived rows (rows.map (fun r => { title := r.title, outputHTML := r.output })) = rows := by
  induction rows with
  | nil => rfl
  | cons r rs ih =>
    simp only [List.map_cons, applyDerived, ih]
    rw [updateRow_self r _ rfl rfl]

/-! ## Claim theorems -/

/-- C1: for every parsed merged markup and original section list, if the
number of sections derived by the sync scan differs from the number of
original sections, the sync fails with the structural-mismatch error
carrying both counts, and the original section list is returned completely
unchanged (no partial result is applied). -/
theorem claim_C1_structural_mismatch (parsedNodes : List DomNode) (rows : List DocumentRow)
    (h : (splitSections parsedNodes).length ≠ rows.length) :
    handleSyncContinuousChanges parsedNodes rows =
      { rows := rows,
        status := SyncStatus.error
          (mismatchMessage (splitSections parsedNodes).length rows.length) } := by
  unfold handleSyncContinuousChanges
  simp [h]

/-- Witness for C1: one original section against an empty merged document
(the user deleted the only heading): the sync reports `0` derived versus
`1` expected and leaves the row list untouched. -/
theorem claim_C1_witness :
    (splitSections ([] : List DomNode)).length ≠ [defaultRow].length ∧
      handleSyncContinuousChanges [] [defaultRow] =
        { rows := [defaultRow],
          status := SyncStatus.error
            (mismatchMessage (splitSections ([] : List DomNode)).length [defaultRow].length) } :=
  ⟨by decide, claim_C1_structural_mismatch [] [defaultRow] (by decide)⟩

/-- C6: on a successful sync, the original section at position `i` receives
the derived title and body at position `i` (positional pairing); all fields
other than `title` and `output` are unchanged; and a section whose derived
title and body are identical to its current values is returned unmodified. -/
theorem claim_C6_positional_update (parsedNodes : List DomNode) (rows : List DocumentRow)
    (i : Nat) (hlen : (splitSections parsedNodes).length = rows.length)
    (hi : i < rows.length) :
    (handleSyncContinuousChanges parsedNodes rows).status =
        SyncStatus.success "Changes synced successfully!" ∧
    (handleSyncContinuousChanges parsedNodes rows).rows.length = rows.length ∧
    ((handleSyncContinuousChanges parsedNodes rows).rows.getD i defaultRow).title =
        ((splitSections parsedNodes).getD i defaultSection).title ∧
    ((handleSyncContinuousChanges parsedNodes rows).rows.getD i defaultRow).output =
        ((splitSections parsedNodes).getD i defaultSection).outputHTML ∧
    ((handleSyncContinuousChanges parsedNodes rows).rows.getD i defaultRow).id =
        (rows.getD i defaultRow).id ∧
    ((handleSyncContinuousChanges parsedNodes rows).rows.getD i defaultRow).input =
        (rows.getD i defaultRow).input ∧
    ((handleSyncContinuousChanges parsedNodes rows).rows.getD i defaultRow).aiPrompt =
        (rows.getD i defaultRow).aiPrompt ∧
    ((handleSyncContinuousChanges parsedNodes rows).rows.getD i defaultRow).isExpanded =
        (rows.getD i defaultRow).isExpanded ∧
    ((handleSyncContinuousChanges parsedNodes rows).rows.getD i defaultRow).isLoading =
        (rows.getD i defaultRow).isLoading ∧
    ((handleSyncContinuousChanges parsedNodes rows).rows.getD i defaultRow).error =
        (rows.getD i defaultRow).error ∧
    ((handleSyncContinuousChanges parsedNodes rows).rows.getD i defaultRow).sectionInputs =
        (rows.getD i defaultRow).sectionInputs ∧
    ((handleSyncContinuousChanges parsedNodes rows).rows.getD i defaultRow).expandedInputs =
        (rows.getD i defaultRow).expandedInputs ∧
    (((splitSections parsedNodes).getD i defaultSection).title = (rows.getD i defaultRow).title →
      ((splitSections parsedNodes).getD i defaultSection).outputHTML = (rows.getD i defaultRow).output →
      (handleSyncContinuousChanges parsedNodes rows).rows.getD i defaultRow =
        rows.getD i defaultRow) := by
  have hout : handleSyncContinuousChanges parsedNodes rows =
      { rows := applyDerived rows (splitSections parsedNodes),
        status := SyncStatus.success "Changes synced successfully!" } := by
    unfold handleSyncContinuousChanges
    simp [hlen]
  have hd : i < (splitSections parsedNodes).length := hlen ▸ hi
  have hpt := applyDerived_getD rows (splitSections parsedNodes) i hi hd
  have hframe := updateRow_frame (rows.getD i defaultRow)
    ((splitSections parsedNodes).getD i defaultSection)
  refine ⟨by rw [hout], by rw [hout]; exact applyDerived_length _ _, ?_, ?_, ?_, ?_, ?_, ?_, ?_, ?_, ?_, ?_, ?_⟩
  · rw [hout]; simp only [hpt]; exact updateRow_title _ _
  · rw [hout]; simp only [hpt]; exact updateRow_output _ _
  · rw [hout]; simp only [hpt]; exact hframe.1
  · rw [hout]; simp only [hpt]; exact hframe.2.1
  · rw [hout]; simp only [hpt]; exact hframe.2.2.1
  · rw [hout]; simp only [hpt]; exact hframe.2.2.2.1
  · rw [hout]; simp only [hpt]; exact hframe.2.2.2.2.1
  · rw [hout]; simp only [hpt]; exact hframe.2.2.2.2.2.1
  · rw [hout]; simp only [hpt]; exact hframe.2.2.2.2.2.2.1
  · rw [hout]; simp only [hpt]; exact hframe.2.2.2.2.2.2.2
  · intro h1 h2
    rw [hout]
    simp only [hpt]
    exact updateRow_self _ _ h1 h2

/-- Witness for C6: one section, merged markup `<h2>T2</h2><p>x</p>`. -/
theorem claim_C6_witness :
    (splitSections [h2Node "T2", pNodeX]).length = [rowA].length ∧ 0 < [rowA].length ∧
    (handleSyncContinuousChanges [h2Node "T2", pNodeX] [rowA]).status =
        SyncStatus.success "Changes synced successfully!" ∧
    ((handleSyncContinuousChanges [h2Node "T2", pNodeX] [rowA]).rows.getD 0 defaultRow).title =
        ((splitSections [h2Node "T2", pNodeX]).getD 0 defaultSection).title ∧
    ((handleSyncContinuousChanges [h2Node "T2", pNodeX] [rowA]).rows.getD 0 defaultRow).id =
        ([rowA].getD 0 defaultRow).id :=
  ⟨by decide, by decide,
    (claim_C6_positional_update [h2Node "T2", pNodeX] [rowA] 0 (by decide) (by decide)).1,
    (claim_C6_positional_update [h2Node "T2", pNodeX] [rowA] 0 (by decide) (by decide)).2.2.1,
    (claim_C6_positional_update [h2Node "T2", pNodeX] [rowA] 0 (by decide) (by decide)).2.2.2.2.1⟩

/-- C7: content with non-whitespace text before the first level-2 heading is
accumulated into an implicitly created first derived section titled
`Untitled Section` (neither discarded nor an error); horizontal-rule nodes
are dropped wherever they occur; and every derived section's body is the
trimmed accumulation. -/
theorem claim_C7_pre_heading_leniency (p1 p2 rest l1 l2 : List DomNode) (n0 hrn : DomNode)
    (ns : List DomNode)
    (hp1 : ∀ n ∈ p1, n.nodeName ≠ "H2" ∧ (n.nodeName = "HR" ∨ jsTrim n.textContent = ""))
    (hn0 : n0.nodeName ≠ "H2" ∧ n0.nodeName ≠ "HR" ∧ jsTrim n0.textContent ≠ "")
    (hp2 : ∀ n ∈ p2, n.nodeName ≠ "H2")
    (hrest : rest = [] ∨ ∃ m rest2, rest = m :: rest2 ∧ m.nodeName = "H2") :
    (∃ tl, splitSections (p1 ++ n0 :: (p2 ++ rest)) =
        { title := "Untitled Section",
          outputHTML := jsTrim (nodeSerial n0 ++ serialNonHR p2) } :: tl) ∧
    (hrn.nodeName = "HR" → splitSections (l1 ++ hrn :: l2) = splitSections (l1 ++ l2)) ∧
    splitSections ns =
      (scanNodes ns none).map (fun s => { s with outputHTML := jsTrim s.outputHTML }) := by
  obtain ⟨hh2, hhr, htext⟩ := hn0
  refine ⟨?_, ?_, rfl⟩
  · have hskip := scanNodes_skip p1 (n0 :: (p2 ++ rest)) hp1
    have hopen : scanNodes (n0 :: (p2 ++ rest)) none =
        scanNodes (p2 ++ rest) (some { title := "Untitled Section", outputHTML := nodeSerial n0 }) := by
      simp [scanNodes, hh2, hhr, htext]
    have hrun := scanNodes_run p2 rest
      { title := "Untitled Section", outputHTML := nodeSerial n0 } hp2
    rcases hrest with hr0 | ⟨m, rest2, hr1, hm⟩
    · refine ⟨[], ?_⟩
      unfold splitSections
      rw [hskip, hopen, hrun, hr0]
      rfl
    · refine ⟨(scanNodes rest none).map (fun s => { s with outputHTML := jsTrim s.outputHTML }), ?_⟩
      unfold splitSections
      rw [hskip, hopen, hrun, hr1,
        scanNodes_emit m rest2 _ hm]
      rfl
  · intro hhrn
    unfold splitSections
    rw [scanNodes_hr_drop hrn hhrn l1 l2 none]

/-- Witness for C7: `hello<p> </p>` before the first heading, followed by
`<h2>A</h2><p>y</p>`, with an `HR` separator dropped elsewhere. -/
theorem claim_C7_witness :
    (∀ n ∈ [DomNode.mk "#text" " " none], n.nodeName ≠ "H2" ∧
        (n.nodeName = "HR" ∨ jsTrim n.textContent = "")) ∧
    ((DomNode.mk "#text" "hello" none).nodeName ≠ "H2" ∧
      (DomNode.mk "#text" "hello" none).nodeName ≠ "HR" ∧
      jsTrim (DomNode.mk "#text" "hello" none).textContent ≠ "") ∧
    (∃ tl, splitSections ([DomNode.mk "#text" " " none] ++
        DomNode.mk "#text" "hello" none :: ([hrNode] ++ [h2Node "A", pNodeY])) =
      { title := "Untitled Section",
        outputHTML := jsTrim (nodeSerial (DomNode.mk "#text" "hello" none) ++ serialNonHR [hrNode]) } :: tl) :=
  ⟨by decide, by decide,
    (claim_C7_pre_heading_leniency [DomNode.mk "#text" " " none] [hrNode] [h2Node "A", pNodeY]
      [] [] (DomNode.mk "#text" "hello" none) hrNode []
      (by decide) (by decide) (by decide)
      (Or.inr ⟨h2Node "A", [pNodeY], rfl, rfl⟩)).1⟩

/-! ## Merge-then-split lemmas -/

theorem scanNodes_h2_open (t : String) (X : List DomNode) :
    scanNodes (h2Node t :: X) none =
      scanNodes X (some { title := jsTrim (jsOr t "Untitled Section"), outputHTML := "" }) := by
  simp [scanNodes, h2Node]

theorem serialNonHR_cons_nl (X : List DomNode) :
    serialNonHR (nlNode :: X) = "\n" ++ serialNonHR X := by
  simp [serialNonHR, nlNode, nodeSerial]

theorem mergeNodes_head_h2 (parseOut : DocumentRow → List DomNode) (r : DocumentRow)
    (rs : List DocumentRow) :
    ∃ t, mergeNodes parseOut (r :: rs) = h2Node (jsOr r.title "Untitled Section") :: t := by
  cases rs with
  | nil => exact ⟨nlNode :: parseOut r, rfl⟩
  | cons r2 rs2 =>
    exact ⟨(nlNode :: parseOut r) ++ ([nlNode, hrNode, nlNode] ++ mergeNodes parseOut (r2 :: rs2)), rfl⟩

theorem scanNodes_merge (parseOut : DocumentRow → List DomNode) (rows : List DocumentRow)
    (h : ∀ r ∈ rows, r.title ≠ "" ∧ jsTrim r.title = r.title ∧ jsTrim r.output = r.output ∧
         serialNodes (parseOut r) = r.output ∧
         ∀ n ∈ parseOut r, n.nodeName ≠ "H2" ∧ n.nodeName ≠ "HR") :
    splitSections (mergeNodes parseOut rows) =
      rows.map (fun r => { title := r.title, outputHTML := r.output }) := by
  induction rows with
  | nil => rfl
  | cons r rs ih =>
    obtain ⟨ht0, ht1, ho1, hser, hpo⟩ := h r (List.mem_cons_self r rs)
    have hrs := fun x hx => h x (List.mem_cons_of_mem r hx)
    have hpoH2 : ∀ n ∈ parseOut r, n.nodeName ≠ "H2" := fun n hn => (hpo n hn).1
    have hpoHR : ∀ n ∈ parseOut r, n.nodeName ≠ "HR" := fun n hn => (hpo n hn).2
    have hser2 : serialNonHR (parseOut r) = r.output := (serialNonHR_of_no_hr _ hpoHR).trans hser
    have htitle : jsTrim (jsOr (jsOr r.title "Untitled Section") "Untitled Section") = r.title := by
      simp only [jsOr, if_neg ht0]
      exact ht1
    cases rs with
    | nil =>
      have hshape : mergeNodes parseOut [r] =
          h2Node (jsOr r.title "Untitled Section") :: (nlNode :: parseOut r) := rfl
      have hne : ∀ n ∈ nlNode :: parseOut r, n.nodeName ≠ "H2" := by
        intro n hn
        rcases List.mem_cons.mp hn with hn | hn
        · subst hn; decide
        · exact hpoH2 n hn
      have hbody : jsTrim ("" ++ serialNonHR (nlNode :: parseOut r)) = r.output := by
        rw [String.empty_append, serialNonHR_cons_nl, hser2,
          jsTrim_ws_left _ _ (by decide)]
        exact ho1
      unfold splitSections
      rw [hshape, scanNodes_h2_open,
        show nlNode :: parseOut r = (nlNode :: parseOut r) ++ [] by simp,
        scanNodes_run _ _ _ hne]
      simp only [scanNodes, List.map_cons, List.map_nil]
      rw [htitle, hbody]
    | cons r2 rs2 =>
      have hshape : mergeNodes parseOut (r :: r2 :: rs2) =
          h2Node (jsOr r.title "Untitled Section") ::
            ((nlNode :: (parseOut r ++ [nlNode, hrNode, nlNode])) ++
              mergeNodes parseOut (r2 :: rs2)) := by
        simp [mergeNodes, List.cons_append, List.append_assoc]
      have hne : ∀ n ∈ nlNode :: (parseOut r ++ [nlNode, hrNode, nlNode]), n.nodeName ≠ "H2" := by
        intro n hn
        rcases List.mem_cons.mp hn with hn | hn
        · subst hn; decide
        · rcases List.mem_append.mp hn with hn | hn
          · exact hpoH2 n hn
          · fin_cases hn <;> decide
      have hbody : jsTrim ("" ++ serialNonHR (nlNode :: (parseOut r ++ [nlNode, hrNode, nlNode]))) =
          r.output := by
        rw [String.empty_append, serialNonHR_cons_nl, serialNonHR_append, hser2,
          show serialNonHR [nlNode, hrNode, nlNode] = "\n\n" by decide,
          jsTrim_ws_left _ _ (by decide), jsTrim_ws_right _ _ (by decide)]
        exact ho1
      obtain ⟨t2, ht2⟩ := mergeNodes_head_h2 parseOut r2 rs2
      have ihh := ih hrs
      unfold splitSections at ihh ⊢
      rw [hshape, scanNodes_h2_open, scanNodes_run _ _ _ hne, ht2,
        scanNodes_emit _ _ _ rfl, ← ht2]
      simp only [List.map_cons]
      rw [ihh, htitle, hbody]
      simp only [List.map_cons]

/-- C2 counterexample: a single section whose title is the empty string.
The merge renders the fallback heading `Untitled Section`, so the split
returns a section titled `Untitled Section`, not the original empty title. -/
theorem claim_C2_counterexample :
    rowNoTitle.title = "" ∧
    splitSections (mergeNodes parseOutX [rowNoTitle]) =
      [{ title := "Untitled Section", outputHTML := "<p>x</p>" }] ∧
    ((splitSections (mergeNodes parseOutX [rowNoTitle])).getD 0 defaultSection).title ≠
      ([rowNoTitle].getD 0 defaultRow).title := by
  decide

/-- C2 (amended): merging N sections and then splitting returns exactly N
sections with the original titles and bodies, and the sync succeeds leaving
the rows unchanged, PROVIDED each section's title is non-empty, trimmed and
renders as plain heading text, and each output is trimmed, contains no
level-2 heading and no horizontal rule, and survives the
parse-then-serialize round trip unchanged. -/
theorem claim_C2_merge_split_roundtrip (parseOut : DocumentRow → List DomNode)
    (rows : List DocumentRow)
    (h : ∀ r ∈ rows, r.title ≠ "" ∧ jsTrim r.title = r.title ∧ jsTrim r.output = r.output ∧
         serialNodes (parseOut r) = r.output ∧
         ∀ n ∈ parseOut r, n.nodeName ≠ "H2" ∧ n.nodeName ≠ "HR") :
    splitSections (mergeNodes parseOut rows) =
      rows.map (fun r => { title := r.title, outputHTML := r.output }) ∧
    (splitSections (mergeNodes parseOut rows)).length = rows.length ∧
    handleSyncContinuousChanges (mergeNodes parseOut rows) rows =
      { rows := rows, status := SyncStatus.success "Changes synced successfully!" } := by
  have hsplit := scanNodes_merge parseOut rows h
  have hlen : (splitSections (mergeNodes parseOut rows)).length = rows.length := by
    rw [hsplit, List.length_map]
  refine ⟨hsplit, hlen, ?_⟩
  unfold handleSyncContinuousChanges
  rw [if_neg (by simp [hlen])]
  rw [hsplit, applyDerived_self]

/-- Witness for C2 (amended): two sections `A` (output `<p>x</p>`) and `B`
(empty output) round-trip through merge and split unchanged. -/
theorem claim_C2_witness :
    (∀ r ∈ [rowA, rowB], r.title ≠ "" ∧ jsTrim r.title = r.title ∧ jsTrim r.output = r.output ∧
        serialNodes (parseOutX r) = r.output ∧
        ∀ n ∈ parseOutX r, n.nodeName ≠ "H2" ∧ n.nodeName ≠ "HR") ∧
    splitSections (mergeNodes parseOutX [rowA, rowB]) =
      [rowA, rowB].map (fun r => { title := r.title, outputHTML := r.output }) ∧
    handleSyncContinuousChanges (mergeNodes parseOutX [rowA, rowB]) [rowA, rowB] =
      { rows := [rowA, rowB], status := SyncStatus.success "Changes synced successfully!" } :=
  ⟨by decide, (claim_C2_merge_split_roundtrip parseOutX [rowA, rowB] (by decide)).1,
    (claim_C2_merge_split_roundtrip parseOutX [rowA, rowB] (by decide)).2.2⟩

/-! ## Generation (C5) -/

/-- C5 counterexample: a generation request completing with empty content
does NOT set the section's `error` field and does NOT leave `output`
unchanged: the returned string `Error: No content received from API.` is
stored into `output`, and `error` is cleared. -/
theorem claim_C5_counterexample :
    ((handleGenerateText true (ApiOutcome.resolved (some "")) [rowGen] "1234").getD 0 defaultRow).error
        = none ∧
    ((handleGenerateText true (ApiOutcome.resolved (some "")) [rowGen] "1234").getD 0 defaultRow).output
        = "Error: No content received from API." ∧
    rowGen.output = "ORIG" ∧
    ((handleGenerateText true (ApiOutcome.resolved (some "")) [rowGen] "1234").getD 0 defaultRow).output
        ≠ rowGen.output ∧
    ((handleGenerateText true (ApiOutcome.resolved (some "")) [rowGen] "1234").getD 0 defaultRow).isLoading
        = some false := by
  decide

/-- C5 (amended): when a generation request completes with empty response
content, the requesting section's `output` is REPLACED by the message
`Error: No content received from API.`, its `isLoading` flag becomes false
and its `error` field is cleared (`generateText` returns the message as a
normal string instead of failing); every other section is unchanged, so the
effect is scoped to the sections bearing the requested id. -/
theorem claim_C5_empty_response (rows : List DocumentRow) (id : String) (content : Option String)
    (hfound : (rows.find? (fun r => r.id = id)).isSome)
    (hempty : content = none ∨ content = some "") :
    handleGenerateText true (ApiOutcome.resolved content) rows id =
      rows.map (fun r => if r.id = id then
        { r with output := "Error: No content received from API.", isLoading := some false,
                 error := none }
        else r) := by
  obtain ⟨w, hw⟩ := Option.isSome_iff_exists.mp hfound
  have hgen : generateText true (ApiOutcome.resolved content) =
      GenResult.returns "Error: No content received from API." := by
    rcases hempty with hcontent | hcontent <;> simp [generateText, hcontent]
  simp only [handleGenerateText, hw, hgen]
  rw [if_neg (by simp)]
  rw [List.map_map]
  apply List.map_congr_left
  intro r _
  by_cases hr : r.id = id <;> simp [hr, Function.comp]

/-- Witness for C5 (amended): two sections; the one with id `1234` receives
the error text in `output` with `error` cleared, the other is untouched. -/
theorem claim_C5_witness :
    (([rowGen, rowB]).find? (fun r => r.id = "1234")).isSome ∧
    handleGenerateText true (ApiOutcome.resolved (some "")) [rowGen, rowB] "1234" =
      [rowGen, rowB].map (fun r => if r.id = "1234" then
        { r with output := "Error: No content received from API.", isLoading := some false,
                 error := none }
        else r) :=
  ⟨by decide, claim_C5_empty_response [rowGen, rowB] "1234" (some "") (by decide) (Or.inr rfl)⟩

/-! ## Import (C10) -/

theorem mapIdxFrom_length (f : Nat → DocumentRow → DocumentRow) (k : Nat)
    (l : List DocumentRow) : (mapIdxFrom f k l).length = l.length := by
  induction l generalizing k with
  | nil => rfl
  | cons r rs ih => simp [mapIdxFrom, ih]

theorem mapIdxFrom_getD (f : Nat → DocumentRow → DocumentRow) (k : Nat) (l : List DocumentRow)
    (i : Nat) (hi : i < l.length) :
    (mapIdxFrom f k l).getD i defaultRow = f (k + i) (l.getD i defaultRow) := by
  induction l generalizing k i with
  | nil => simp at hi
  | cons r rs ih =>
    cases i with
    | zero => simp [mapIdxFrom]
    | succ n =>
      simp only [mapIdxFrom, List.getD_cons_succ]
      rw [ih (k + 1) n (by simpa using hi)]
      congr 1
      omega

/-- C10: importing a text file either replaces the last section's input
(when that input is empty or whitespace-only, keeping the section count)
or appends one new section seeded with the imported text; in both cases
every other section is unchanged. -/
theorem claim_C10_import_text (text freshId : String) (prevRows : List DocumentRow)
    (hne : prevRows ≠ []) :
    (jsTrim (prevRows.getLast hne).input = "" →
      (handleImportDocument text freshId prevRows).length = prevRows.length ∧
      (handleImportDocument text freshId prevRows).getD (prevRows.length - 1) defaultRow =
        { prevRows.getLast hne with input := text } ∧
      (∀ i, i < prevRows.length - 1 →
        (handleImportDocument text freshId prevRows).getD i defaultRow =
          prevRows.getD i defaultRow)) ∧
    (jsTrim (prevRows.getLast hne).input ≠ "" →
      handleImportDocument text freshId prevRows =
        prevRows ++ [createInitialRow freshId text ""]) := by
  have hlast : prevRows.getLast? = some (prevRows.getLast hne) := List.getLast?_eq_getLast _ hne
  have hlen0 : 0 < prevRows.length := List.length_pos.mpr hne
  have hgetD : prevRows.getD (prevRows.length - 1) defaultRow = prevRows.getLast hne := by
    rw [List.getD_eq_getElem _ _ (by omega), List.getLast_eq_getElem]
  constructor
  · intro hblank
    have himp : handleImportDocument text freshId prevRows =
        mapIdxFrom (fun index row =>
          if index = prevRows.length - 1 then { row with input := text } else row) 0 prevRows := by
      unfold handleImportDocument
      rw [hlast]
      simp [hblank]
    refine ⟨?_, ?_, ?_⟩
    · rw [himp, mapIdxFrom_length]
    · rw [himp, mapIdxFrom_getD _ _ _ _ (by omega), Nat.zero_add, hgetD]
      simp
    · intro i hi
      rw [himp, mapIdxFrom_getD _ _ _ _ (by omega)]
      simp [Nat.ne_of_lt hi]
  · intro hfilled
    unfold handleImportDocument
    rw [hlast]
    simp [hfilled]

/-- Witness for C10: two sections, the last one blank: the import lands in
the last section's input and the count stays 2. -/
theorem claim_C10_witness :
    ([rowA, rowB] : List DocumentRow) ≠ [] ∧
    (jsTrim (([rowA, rowB] : List DocumentRow).getLast (by decide)).input = "" →
      (handleImportDocument "imported text" "55" [rowA, rowB]).length = ([rowA, rowB] : List DocumentRow).length ∧
      (handleImportDocument "imported text" "55" [rowA, rowB]).getD (([rowA, rowB] : List DocumentRow).length - 1) defaultRow =
        { ([rowA, rowB] : List DocumentRow).getLast (by decide) with input := "imported text" } ∧
      (∀ i, i < ([rowA, rowB] : List DocumentRow).length - 1 →
        (handleImportDocument "imported text" "55" [rowA, rowB]).getD i defaultRow =
          ([rowA, rowB] : List DocumentRow).getD i defaultRow)) :=
  ⟨by decide, (claim_C10_import_text "imported text" "55" [rowA, rowB] (by decide)).1⟩

/-! ## Section-list invariant (C3) -/

/-- C3 counterexample: opening a saved document whose stored `rows` list is
empty replaces the active section list with the empty list, so `Open` does
not always install a non-empty list. -/
theorem claim_C3_counterexample :
    (handleOpenDocument stLocal docEmptyRows).rows = [] ∧
    (handleOpenDocument stLocal docEmptyRows).rows.length = 0 := by
  decide

/-- C3 (amended): deleting a section when the list has exactly one element
is a no-op; `NewDocument`, local `Delete` of the open document, and the
remote-success `Initialize` path install the one-element default list;
`Open` installs the opened document's sections, which is non-empty whenever
that document has at least one section. -/
theorem claim_C3_at_least_one_section (rows : List DocumentRow) (sid : String) (st st2 : AppState)
    (doc : SavedDocument) (freshRowId delId : String) (env : RemoteEnv)
    (deleteRes : Except String Unit) (supabaseAvailable : Bool)
    (data : List SupabaseDocument) (u : String)
    (hone : rows.length = 1) :
    handleDeleteRow rows sid = rows ∧
    (handleNewDocument st freshRowId).rows = [createInitialRow freshRowId "" ""] ∧
    (handleNewDocument st freshRowId).rows.length = 1 ∧
    (st.operatingMode = OperatingMode.localMode → st.currentDocumentId = some delId →
      (handleDeleteDocument st delId supabaseAvailable env deleteRes freshRowId).rows =
        [createInitialRow freshRowId "" ""]) ∧
    (env.authResult = Except.ok u → env.listDocs = Except.ok data →
      (loadFromSupabase st2 env freshRowId).rows.length = 1) ∧
    (doc.rows ≠ [] → (handleOpenDocument st doc).rows ≠ []) := by
  refine ⟨?_, rfl, rfl, ?_, ?_, ?_⟩
  · unfold handleDeleteRow
    rw [if_neg (by omega)]
  · intro hmode hcur
    unfold handleDeleteDocument
    rw [if_neg (by simp [hmode])]
    rw [if_pos hmode]
    simp [hcur]
  · intro ha hl
    unfold loadFromSupabase
    rw [ha, hl]
    rfl
  · intro hd
    exact hd

/-- Witness for C3 (amended): a one-element list survives `handleDeleteRow`
unchanged, and `NewDocument` installs a one-element list. -/
theorem claim_C3_witness :
    ([rowA] : List DocumentRow).length = 1 ∧
    handleDeleteRow [rowA] "1" = [rowA] ∧
    (handleNewDocument stLocal "9").rows.length = 1 :=
  ⟨by decide,
    (claim_C3_at_least_one_section [rowA] "1" stLocal stLocal docEmptyRows "9" "d" envDown
      (Except.error "x") false [] "u" (by decide)).1,
    (claim_C3_at_least_one_section [rowA] "1" stLocal stLocal docEmptyRows "9" "d" envDown
      (Except.error "x") false [] "u" (by decide)).2.2.1⟩

/-! ## Local save (C4) -/

/-- C4: in local mode, starting from an empty saved-documents index with no
open document, saving with a non-blank title appends exactly one new
document carrying the trimmed title and the current active sections, the
index (a singleton) is sorted by `updatedAt` descending, and the
open-document id is bound to the freshly generated id. -/
theorem claim_C4_local_first_save (st : AppState) (title : String) (supabaseAvailable : Bool)
    (env : RemoteEnv) (upsertRes : Except String SupabaseDocument)
    (now freshDocId freshRowId : String) (getTime : String → Int)
    (hmode : st.operatingMode = OperatingMode.localMode)
    (hdocs : st.savedDocuments = [])
    (hcur : st.currentDocumentId = none)
    (htitle : jsTrim title ≠ "") :
    (handleSaveDocument st title supabaseAvailable env upsertRes now freshDocId freshRowId
        getTime).savedDocuments =
      [{ id := freshDocId, title := jsTrim title, createdAt := now, updatedAt := now,
         rows := st.rows }] ∧
    (handleSaveDocument st title supabaseAvailable env upsertRes now freshDocId freshRowId
        getTime).currentDocumentId = some freshDocId ∧
    (handleSaveDocument st title supabaseAvailable env upsertRes now freshDocId freshRowId
        getTime).rows = st.rows ∧
    (handleSaveDocument st title supabaseAvailable env upsertRes now freshDocId freshRowId
        getTime).operatingMode = OperatingMode.localMode ∧
    sortByUpdatedAtDesc getTime
        (handleSaveDocument st title supabaseAvailable env upsertRes now freshDocId freshRowId
          getTime).savedDocuments =
      (handleSaveDocument st title supabaseAvailable env upsertRes now freshDocId freshRowId
        getTime).savedDocuments := by
  have hcond : ¬ (st.operatingMode = OperatingMode.supabase ∧ supabaseAvailable = true) := by
    simp [hmode]
  have hres : handleSaveDocument st title supabaseAvailable env upsertRes now freshDocId
      freshRowId getTime =
      { st with
        savedDocuments := [{ id := freshDocId, title := jsTrim title, createdAt := now,
                             updatedAt := now, rows := st.rows }],
        currentDocumentId := some freshDocId } := by
    simp only [handleSaveDocument]
    rw [if_neg htitle, if_neg hcond, if_pos hmode]
    simp only [hcur, hdocs, List.nil_append, sortByUpdatedAtDesc, insertByUpdatedAtDesc]
  rw [hres]
  exact ⟨rfl, rfl, rfl, hmode, rfl⟩

/-- Witness for C4: the spec's scenario — local mode, one default section
with input `draft`, `Save("My Doc")`. -/
theorem claim_C4_witness :
    stLocal.operatingMode = OperatingMode.localMode ∧ stLocal.savedDocuments = [] ∧
    stLocal.currentDocumentId = none ∧ jsTrim "My Doc" ≠ "" ∧
    (handleSaveDocument stLocal "My Doc" false envDown (Except.error "x")
        "2024-01-01T00:00:00.000Z" "99" "98" (fun _ => 0)).savedDocuments =
      [{ id := "99", title := jsTrim "My Doc", createdAt := "2024-01-01T00:00:00.000Z",
         updatedAt := "2024-01-01T00:00:00.000Z", rows := stLocal.rows }] ∧
    (handleSaveDocument stLocal "My Doc" false envDown (Except.error "x")
        "2024-01-01T00:00:00.000Z" "99" "98" (fun _ => 0)).currentDocumentId = some "99" :=
  ⟨rfl, rfl, rfl, by decide,
    (claim_C4_local_first_save stLocal "My Doc" false envDown (Except.error "x")
      "2024-01-01T00:00:00.000Z" "99" "98" (fun _ => 0) rfl rfl rfl (by decide)).1,
    (claim_C4_local_first_save stLocal "My Doc" false envDown (Except.error "x")
      "2024-01-01T00:00:00.000Z" "99" "98" (fun _ => 0) rfl rfl rfl (by decide)).2.1⟩

/-! ## Local storage failure handling (C8) -/

theorem loadLocalNoCurrentDoc_mode (st : AppState) (localRows : ParsedValue (List DocumentRow))
    (localSavedDocs : ParsedValue (List SavedDocument)) (curId : Option String)
    (freshId : String) :
    (loadLocalNoCurrentDoc st localRows localSavedDocs curId freshId).operatingMode =
        OperatingMode.localMode ∨
    (loadLocalNoCurrentDoc st localRows localSavedDocs curId freshId).operatingMode =
        OperatingMode.error := by
  simp only [loadLocalNoCurrentDoc]
  split
  · exact Or.inr rfl
  · split
    · exact Or.inl rfl
    · exact Or.inl rfl

theorem loadFromLocalStorage_mode (st : AppState)
    (rowsRead : Except String (Option (ParsedValue (List DocumentRow))))
    (docsRead : Except String (Option (ParsedValue (List SavedDocument))))
    (idRead : Except String (Option (Option String))) (freshId : String) :
    (loadFromLocalStorage st rowsRead docsRead idRead freshId).operatingMode =
        OperatingMode.localMode ∨
    (loadFromLocalStorage st rowsRead docsRead idRead freshId).operatingMode =
        OperatingMode.error := by
  simp only [loadFromLocalStorage]
  split
  · split
    · exact loadLocalNoCurrentDoc_mode _ _ _ _ _
    · split
      · exact Or.inr rfl
      · split
        · exact Or.inl rfl
        · exact Or.inl rfl
  · exact loadLocalNoCurrentDoc_mode _ _ _ _ _

theorem loadFromLocalStorage_never_supabase (st : AppState)
    (rowsRead : Except String (Option (ParsedValue (List DocumentRow))))
    (docsRead : Except String (Option (ParsedValue (List SavedDocument))))
    (idRead : Except String (Option (Option String))) (freshId : String) :
    (loadFromLocalStorage st rowsRead docsRead idRead freshId).operatingMode ≠
      OperatingMode.supabase := by
  rcases loadFromLocalStorage_mode st rowsRead docsRead idRead freshId with h | h <;>
    rw [h] <;> decide

/-- C8 counterexample: every local-storage read throws
(`QuotaExceededError`), yet the load completes in `local` mode with no
recorded error cause — the session does NOT transition to the
degraded/error mode. -/
theorem claim_C8_counterexample :
    (loadFromLocalStorage stLocal (Except.error "QuotaExceededError")
        (Except.error "QuotaExceededError") (Except.error "QuotaExceededError")
        "7").operatingMode = OperatingMode.localMode ∧
    (loadFromLocalStorage stLocal (Except.error "QuotaExceededError")
        (Except.error "QuotaExceededError") (Except.error "QuotaExceededError")
        "7").operatingMode ≠ OperatingMode.error ∧
    (loadFromLocalStorage stLocal (Except.error "QuotaExceededError")
        (Except.error "QuotaExceededError") (Except.error "QuotaExceededError")
        "7").appError = none := by
  decide

/-- C8 (amended): failures THROWN by the local-storage APIs (quota
exhaustion on write, a throwing read, unparseable JSON) are caught inside
the storage helpers and silently swallowed (logged to the console only):
a failed read returns the caller-supplied default, a failed write returns
normally, and a load whose every read throws completes in `local` mode with
no recorded cause — no transition to the degraded/error mode.  A
corrupted-but-PARSEABLE stored value (JSON `null`) that the load then uses
as an array, however, throws inside `loadFromLocalStorage`'s own try block
and does transition the session to the error mode with a recorded
human-readable cause: a `null` saved-documents list with a bound
current-document id, or a `null` row list with no current-document id. -/
theorem claim_C8_storage_failures_swallowed {α : Type} (e : String) (initialValue : α)
    (writeResult : Except String Unit) (st : AppState) (e1 e2 e3 : String)
    (rowsRead : Except String (Option (ParsedValue (List DocumentRow))))
    (docsRead : Except String (Option (ParsedValue (List SavedDocument))))
    (freshId cid m : String) (hcid : cid ≠ "") :
    getItem (Except.error e) initialValue = initialValue ∧
    setItem writeResult = Except.ok () ∧
    ((loadFromLocalStorage st (Except.error e1) (Except.error e2) (Except.error e3)
        freshId).operatingMode = OperatingMode.localMode ∧
      (loadFromLocalStorage st (Except.error e1) (Except.error e2) (Except.error e3)
        freshId).appError = none) ∧
    ((loadFromLocalStorage st rowsRead (Except.ok (some (ParsedValue.nullValue m)))
        (Except.ok (some (some cid))) freshId).operatingMode = OperatingMode.error ∧
      (loadFromLocalStorage st rowsRead (Except.ok (some (ParsedValue.nullValue m)))
        (Except.ok (some (some cid))) freshId).appError =
        some ("Failed to load data from LocalStorage: " ++ m)) ∧
    ((loadFromLocalStorage st (Except.ok (some (ParsedValue.nullValue m))) docsRead
        (Except.ok none) freshId).operatingMode = OperatingMode.error ∧
      (loadFromLocalStorage st (Except.ok (some (ParsedValue.nullValue m))) docsRead
        (Except.ok none) freshId).appError =
        some ("Failed to load data from LocalStorage: " ++ m)) := by
  refine ⟨rfl, by cases writeResult <;> rfl, ?_, ?_, ?_⟩
  · exact ⟨rfl, rfl⟩
  · simp only [loadFromLocalStorage, getItem]
    rw [if_neg hcid]
    exact ⟨rfl, rfl⟩
  · exact ⟨rfl, rfl⟩

/-- Witness for C8 (amended): reads that throw leave the session in local
mode with no cause, while a stored `"null"` saved-documents value together
with a bound current-document id lands in error mode with the recorded
cause. -/
theorem claim_C8_witness :
    ("d1" : String) ≠ "" ∧
    (loadFromLocalStorage stLocal (Except.error "QuotaExceededError")
        (Except.error "QuotaExceededError") (Except.error "QuotaExceededError")
        "7").operatingMode = OperatingMode.localMode ∧
    (loadFromLocalStorage stLocal (Except.error "QuotaExceededError")
        (Except.ok (some (ParsedValue.nullValue "Cannot read properties of null")))
        (Except.ok (some (some "d1"))) "7").operatingMode = OperatingMode.error ∧
    (loadFromLocalStorage stLocal (Except.error "QuotaExceededError")
        (Except.ok (some (ParsedValue.nullValue "Cannot read properties of null")))
        (Except.ok (some (some "d1"))) "7").appError =
      some ("Failed to load data from LocalStorage: " ++ "Cannot read properties of null") :=
  ⟨by decide,
    (@claim_C8_storage_failures_swallowed Nat "e" 0 (Except.ok ()) stLocal
      "QuotaExceededError" "QuotaExceededError" "QuotaExceededError"
      (Except.error "QuotaExceededError")
      (Except.error "QuotaExceededError") "7" "d1" "Cannot read properties of null"
      (by decide)).2.2.1.1,
    (@claim_C8_storage_failures_swallowed Nat "e" 0 (Except.ok ()) stLocal
      "QuotaExceededError" "QuotaExceededError" "QuotaExceededError"
      (Except.error "QuotaExceededError")
      (Except.error "QuotaExceededError") "7" "d1" "Cannot read properties of null"
      (by decide)).2.2.2.1.1,
    (@claim_C8_storage_failures_swallowed Nat "e" 0 (Except.ok ()) stLocal
      "QuotaExceededError" "QuotaExceededError" "QuotaExceededError"
      (Except.error "QuotaExceededError")
      (Except.error "QuotaExceededError") "7" "d1" "Cannot read properties of null"
      (by decide)).2.2.2.1.2⟩

/-! ## Mode monotonicity (C9) -/

theorem handleSaveDocument_preserves_not_supabase (st : AppState) (title : String)
    (supabaseAvailable : Bool) (env : RemoteEnv) (upsertRes : Except String SupabaseDocument)
    (now freshDocId freshRowId : String) (getTime : String → Int)
    (h : st.operatingMode ≠ OperatingMode.supabase) :
    (handleSaveDocument st title supabaseAvailable env upsertRes now freshDocId freshRowId
      getTime).operatingMode ≠ OperatingMode.supabase := by
  simp only [handleSaveDocument]
  split
  · exact h
  · split
    · rename_i hcond
      exact absurd hcond.1 h
    · split
      · split <;> exact h
      · exact h

theorem handleDeleteDocument_preserves_not_supabase (st : AppState) (id : String)
    (supabaseAvailable : Bool) (env : RemoteEnv) (deleteRes : Except String Unit)
    (freshRowId : String) (h : st.operatingMode ≠ OperatingMode.supabase) :
    (handleDeleteDocument st id supabaseAvailable env deleteRes
      freshRowId).operatingMode ≠ OperatingMode.supabase := by
  simp only [handleDeleteDocument]
  split
  · rename_i hcond
    exact absurd hcond.1 h
  · split
    · split <;> exact h
    · exact h

theorem loadFromSupabase_auth_failure (st : AppState) (env : RemoteEnv) (freshId m : String)
    (h : env.authResult = Except.error m) :
    (loadFromSupabase st env freshId).operatingMode = OperatingMode.error := by
  unfold loadFromSupabase
  rw [h]

theorem loadFromSupabase_list_failure (st : AppState) (env : RemoteEnv) (freshId m : String)
    (h : env.listDocs = Except.error m) :
    (loadFromSupabase st env freshId).operatingMode ≠ OperatingMode.localMode := by
  unfold loadFromSupabase
  cases ha : env.authResult with
  | error m2 => simp
  | ok u => rw [h]; simp

/-- C9: once the session's mode is `local` or `error`, no session operation
(save, delete, open, new) ever sets the mode to `supabase`; the
local-storage fallback (used only during initialization) never produces
`supabase` mode either (it lands in `local`, or in `error` when a
corrupted-but-parseable stored value makes its try block throw); and remote
failures transition to the `error` mode — they never silently fall back to
`local`. -/
theorem claim_C9_no_return_to_remote (st st2 st3 : AppState) (title delId : String)
    (supabaseAvailable : Bool) (env : RemoteEnv) (upsertRes : Except String SupabaseDocument)
    (deleteRes : Except String Unit) (now freshDocId freshRowId m : String)
    (getTime : String → Int) (doc : SavedDocument)
    (rowsRead : Except String (Option (ParsedValue (List DocumentRow))))
    (docsRead : Except String (Option (ParsedValue (List SavedDocument))))
    (idRead : Except String (Option (Option String)))
    (h : st.operatingMode = OperatingMode.localMode ∨ st.operatingMode = OperatingMode.error) :
    (handleSaveDocument st title supabaseAvailable env upsertRes now freshDocId freshRowId
      getTime).operatingMode ≠ OperatingMode.supabase ∧
    (handleDeleteDocument st delId supabaseAvailable env deleteRes
      freshRowId).operatingMode ≠ OperatingMode.supabase ∧
    (handleOpenDocument st doc).operatingMode = st.operatingMode ∧
    (handleNewDocument st freshRowId).operatingMode = st.operatingMode ∧
    (loadFromLocalStorage st2 rowsRead docsRead idRead freshRowId).operatingMode ≠
      OperatingMode.supabase ∧
    (env.authResult = Except.error m →
      (loadFromSupabase st2 env freshRowId).operatingMode = OperatingMode.error) ∧
    (env.listDocs = Except.error m →
      (loadFromSupabase st2 env freshRowId).operatingMode ≠ OperatingMode.localMode) ∧
    (st3.operatingMode = OperatingMode.supabase → supabaseAvailable = true →
      jsTrim title ≠ "" → upsertRes = Except.error m →
      (handleSaveDocument st3 title supabaseAvailable env upsertRes now freshDocId freshRowId
        getTime).operatingMode = OperatingMode.error) := by
  have hns : st.operatingMode ≠ OperatingMode.supabase := by
    rcases h with h | h <;> rw [h] <;> decide
  refine ⟨handleSaveDocument_preserves_not_supabase st title supabaseAvailable env upsertRes
      now freshDocId freshRowId getTime hns,
    handleDeleteDocument_preserves_not_supabase st delId supabaseAvailable env deleteRes
      freshRowId hns,
    rfl, rfl,
    loadFromLocalStorage_never_supabase st2 rowsRead docsRead idRead freshRowId,
    fun ha => loadFromSupabase_auth_failure st2 env freshRowId m ha,
    fun hl => loadFromSupabase_list_failure st2 env freshRowId m hl,
    ?_⟩
  intro hmode havail htitle hup
  simp only [handleSaveDocument]
  rw [if_neg htitle, if_pos ⟨hmode, havail⟩]
  cases ha : env.authResult with
  | error m2 => rfl
  | ok u => rw [hup]

/-- Witness for C9: a session in local mode; saving and deleting stay out of
`supabase` mode, and a failing remote load ends in `error` mode. -/
theorem claim_C9_witness :
    (stLocal.operatingMode = OperatingMode.localMode ∨
      stLocal.operatingMode = OperatingMode.error) ∧
    (handleSaveDocument stLocal "T" false envDown (Except.error "x") "t" "99" "98"
      (fun _ => 0)).operatingMode ≠ OperatingMode.supabase ∧
    (handleDeleteDocument stLocal "d" false envDown (Except.error "x")
      "98").operatingMode ≠ OperatingMode.supabase ∧
    (envDown.authResult = Except.error "network down" →
      (loadFromSupabase stLocal envDown "98").operatingMode = OperatingMode.error) :=
  ⟨Or.inl rfl,
    (claim_C9_no_return_to_remote stLocal stLocal stLocal "T" "d" false envDown
      (Except.error "x") (Except.error "x") "t" "99" "98" "network down" (fun _ => 0)
      docEmptyRows (Except.error "x") (Except.error "x") (Except.error "x")
      (Or.inl rfl)).1,
    (claim_C9_no_return_to_remote stLocal stLocal stLocal "T" "d" false envDown
      (Except.error "x") (Except.error "x") "t" "99" "98" "network down" (fun _ => 0)
      docEmptyRows (Except.error "x") (Except.error "x") (Except.error "x")
      (Or.inl rfl)).2.1,
    (claim_C9_no_return_to_remote stLocal stLocal stLocal "T" "d" false envDown
      (Except.error "x") (Except.error "x") "t" "99" "98" "network down" (fun _ => 0)
      docEmptyRows (Except.error "x") (Except.error "x") (Except.error "x")
      (Or.inl rfl)).2.2.2.2.2.1⟩

end PaperWrite
